import Mathlib

/-!
Verification of the sliding-window line-CNN encoder and the transformer
utility module (positional encodings and causal mask) of the
handwritten-text-line recognition repository.

The embedding follows the Python source:
* `LABs/lab5/text_recognizer/models/line_cnn_simple.py` — `LineCNNSimple.forward`
* `LABs/lab7/text_recognizer/models/transformer_util.py` — two classes both
  named `PositionalEncoding` (a 2-D one, then a classic 1-D one that shadows
  it) and `generate_square_subsequent_mask`.

Tensors are modelled as total index functions together with explicit shape
fields; float arithmetic is modelled exactly (ℚ for the mask values, ℝ for
the sinusoidal tables); Python-level failures (assert, torch shape errors,
negative tensor dimensions, division by zero) are an explicit error type.
-/

/-- Errors raised by the modelled Python/torch code paths. -/
inductive TorchError where
  /-- A Python `assert` statement failed (raises `AssertionError`). -/
  | assertionFailed : TorchError
  /-- A tensor constructor was given a negative dimension (RuntimeError). -/
  | negativeDim : TorchError
  /-- An in-place slice assignment received a right-hand side whose shape
      cannot broadcast to the slice (RuntimeError). -/
  | shapeMismatch : TorchError
  /-- Integer division by zero (ZeroDivisionError). -/
  | divByZero : TorchError
  /-- A call supplied a keyword argument the callee does not accept. -/
  | typeError : TorchError
  deriving DecidableEq

/-! ## line_cnn_simple.py -/

/-- `WINDOW_WIDTH = 28` (module constant). -/
def WINDOW_WIDTH : ℕ := 28

/-- `WINDOW_STRIDE = 28` (module constant). -/
def WINDOW_STRIDE : ℕ := 28

/-- Modelled from the spec: the fixed input height `IMAGE_SIZE` is imported
from the external `cnn` module, which is not part of the selected sources;
the spec says only that "height is fixed by configuration" and violated
inputs fail fast.  Its concrete value is irrelevant to every claim below;
we fix the conventional 28. -/
def IMAGE_SIZE : ℕ := 28

/-- A (batch, channel, height, width)-indexed image tensor, modelled as a
total function; shapes are carried separately by the code that uses it. -/
abbrev Image := ℕ → ℕ → ℕ → ℕ → ℝ

/-- `x[:, :, :, start_w:end_w]`: the width-axis slice of an image starting
at column `start_w`.  Column `w` of the slice is column `start_w + w` of
`x`; the slice has width `end_w - start_w` when `end_w` is in range. -/
def windowSlice (x : Image) (start_w : ℕ) : Image :=
  fun b c h w => x b c h (start_w + w)

/-- The `(B, num_classes, S)` activation tensor produced by the encoder:
shape fields plus a total entry function `(b, class, s) ↦ score`. -/
structure Activations where
  B : ℕ
  C : ℕ
  S : ℕ
  entry : ℕ → ℕ → ℕ → ℝ

/-- The `LineCNNSimple` module: configuration read in `__init__` plus the
per-window feature extractor `cnn`, an opaque external collaborator that
maps a window image to a `(batch, class)`-indexed score function. -/
structure LineCNNSimple where
  WW : ℕ
  WS : ℕ
  limit_output_length : Bool
  num_classes : ℕ
  output_length : ℕ
  cnn : Image → ℕ → ℕ → ℝ

/-- `start_w = self.WS * s` inside the window loop. -/
def LineCNNSimple.start_w (m : LineCNNSimple) (s : ℕ) : ℕ := m.WS * s

/-- `end_w = start_w + self.WW` inside the window loop. -/
def LineCNNSimple.end_w (m : LineCNNSimple) (s : ℕ) : ℕ := m.start_w s + m.WW

/-- `S = math.floor((W - self.WW) / self.WS + 1)`: Python evaluates
`(W - self.WW) / self.WS` with true (float) division, adds `1`, and takes
`math.floor`; the real number the expression denotes is modelled exactly
over ℚ. -/
def LineCNNSimple.S (m : LineCNNSimple) (W : ℕ) : ℤ :=
  ⌊((W : ℚ) - (m.WW : ℚ)) / (m.WS : ℚ) + 1⌋

/-- `LineCNNSimple.forward`.  Mirrors the source line by line:
`assert H == IMAGE_SIZE`; `S = math.floor((W - self.WW) / self.WS + 1)`
(float division by a zero stride raises ZeroDivisionError first);
`torch.zeros((B, self.num_classes, S))` (negative `S` raises);
the loop writes `activations[:, :, s] = self.cnn(x[:, :, :, start_w:end_w])`
for `s in range(S)`; finally, if `self.limit_output_length`, the result is
`activations[:, :, : self.output_length]`. -/
def LineCNNSimple.forward (m : LineCNNSimple) (B _C H W : ℕ) (x : Image) :
    Except TorchError Activations :=
  if H ≠ IMAGE_SIZE then .error .assertionFailed
  else if m.WS = 0 then .error .divByZero
  else
    let S : ℤ := m.S W
    if S < 0 then .error .negativeDim
    else
      let Sn : ℕ := S.toNat
      let act : ℕ → ℕ → ℕ → ℝ := fun b c s =>
        if s < Sn then m.cnn (windowSlice x (m.start_w s)) b c else 0
      if m.limit_output_length then
        .ok ⟨B, m.num_classes, min Sn m.output_length, act⟩
      else
        .ok ⟨B, m.num_classes, Sn, act⟩

/-- The sequence-axis length of a forward result, when it is not an error. -/
def resultSeqLen : Except TorchError Activations → Option ℕ
  | .ok a => some a.S
  | .error _ => none

/-! ## transformer_util.py -/

/-- A float value as it appears in the causal mask: an ordinary rational or
the IEEE negative infinity produced by `float("-inf")`. -/
inductive FloatVal where
  | val : ℚ → FloatVal
  | negInf : FloatVal
  deriving DecidableEq

/-- A `(max_len, 1, d_model)`- or `(d_model, max_h, max_w)`-shaped real
tensor: three shape fields and a total entry function. -/
structure Tensor3 where
  d0 : ℕ
  d1 : ℕ
  d2 : ℕ
  entry : ℕ → ℕ → ℕ → ℝ

/-- The two `class PositionalEncoding` statements in the module. -/
inductive PEVariant where
  /-- The first class: 2-D positional encoding for feature maps. -/
  | twoD : PEVariant
  /-- The second class: classic 1-D sinusoidal positional encoding. -/
  | oneD : PEVariant
  deriving DecidableEq

/-- The module body executes two class statements, in source order, each
binding the module-level name `PositionalEncoding`. -/
def transformer_util_bindings : List PEVariant := [PEVariant.twoD, PEVariant.oneD]

/-- Python name resolution: the value of a module-level name after the
module body runs is the one installed by the last binding statement. -/
def resolvePositionalEncoding : Option PEVariant :=
  transformer_util_bindings.getLast?

namespace PositionalEncoding1D

/-- `div_term[k] = exp((2k) * (-log 10000 / d_model))`, the `k`-th entry of
`torch.exp(torch.arange(0, d_model, 2).float() * (-math.log(10000.0) / d_model))`. -/
noncomputable def div_term (d_model k : ℕ) : ℝ :=
  Real.exp ((2 * k : ℝ) * (-Real.log 10000 / (d_model : ℝ)))

/-- The value written at `pe[p, i]` by the two strided assignments:
`pe[:, 0::2] = torch.sin(position * div_term)` and
`pe[:, 1::2] = torch.cos(position * div_term)`. -/
noncomputable def pe_entry (d_model p i : ℕ) : ℝ :=
  if i % 2 = 0 then Real.sin ((p : ℝ) * div_term d_model (i / 2))
  else Real.cos ((p : ℝ) * div_term d_model (i / 2))

/-- `make_pe` of the second (classic 1-D) `PositionalEncoding` class.
`torch.arange(0, d_model, 2)` has `(d_model + 1) / 2` entries, so
`position * div_term` has that many columns, while the slice
`pe[:, 1::2]` has `d_model / 2` columns: when `d_model` is odd the cosine
assignment fails to broadcast and the call raises.  Otherwise the result
is the `(max_len, 1, d_model)` tensor produced by `pe.unsqueeze(1)`. -/
noncomputable def make_pe (d_model max_len : ℕ) : Except TorchError Tensor3 :=
  if d_model / 2 ≠ (d_model + 1) / 2 then .error .shapeMismatch
  else .ok ⟨max_len, 1, d_model, fun p _ i => pe_entry d_model p i⟩

end PositionalEncoding1D

/-- The call `PositionalEncoding.make_pe(d_model=..., max_len=...)` appearing
inside the 2-D class body, dispatched through the module-level name as
Python resolves it at call time.  The 2-D class's own `make_pe` has no
`max_len` parameter, so resolving to it would raise a `TypeError`. -/
noncomputable def call_module_make_pe (v : Option PEVariant) (d_model max_len : ℕ) :
    Except TorchError Tensor3 :=
  match v with
  | some PEVariant.oneD => PositionalEncoding1D.make_pe d_model max_len
  | some PEVariant.twoD => .error .typeError
  | none => .error .typeError

namespace PositionalEncoding2D

/-- `make_pe` of the first (2-D) `PositionalEncoding` class.  Both inner
calls go through the module-level name `PositionalEncoding` (resolved at
call time, hence to the second class).  `pe_h.permute(2, 0, 1).expand(-1, -1, max_w)`
has entry `(k, r, c) ↦ pe_h[r, 0, k]`; `pe_w.permute(2, 1, 0).expand(-1, max_h, -1)`
has entry `(k, r, c) ↦ pe_w[c, 0, k]`; `torch.cat([pe_h, pe_w], dim=0)`
stacks them along the depth axis. -/
noncomputable def make_pe (d_model max_h max_w : ℕ) : Except TorchError Tensor3 := do
  let pe_h ← call_module_make_pe resolvePositionalEncoding (d_model / 2) max_h
  let pe_w ← call_module_make_pe resolvePositionalEncoding (d_model / 2) max_w
  .ok ⟨pe_h.d2 + pe_w.d2, max_h, max_w,
    fun i r c =>
      if i < pe_h.d2 then pe_h.entry r 0 i else pe_w.entry c 0 (i - pe_h.d2)⟩

end PositionalEncoding2D

/-- The refinement target for the shadowing claim: the 2-D `make_pe` with
both inner calls bound directly to the classic 1-D `make_pe`, which is
what the spec says the module-level name denotes after loading. -/
noncomputable def make_pe_2D_via_1D (d_model max_h max_w : ℕ) : Except TorchError Tensor3 := do
  let pe_h ← PositionalEncoding1D.make_pe (d_model / 2) max_h
  let pe_w ← PositionalEncoding1D.make_pe (d_model / 2) max_w
  .ok ⟨pe_h.d2 + pe_w.d2, max_h, max_w,
    fun i r c =>
      if i < pe_h.d2 then pe_h.entry r 0 i else pe_w.entry c 0 (i - pe_h.d2)⟩

/-- A `(size, size)` causal mask: the shared side length and a total entry
function. -/
structure Mask where
  size : ℕ
  entry : ℕ → ℕ → FloatVal

/-- Entry `(i, j)` of `torch.triu(torch.ones(size, size))`: ones on and
above the diagonal. -/
def onesTriu (i j : ℕ) : ℚ := if i ≤ j then 1 else 0

/-- Entry `(i, j)` of the finished mask.  `(torch.triu(torch.ones(n, n)) == 1)`
`.transpose(0, 1)` reads the triu tensor at `(j, i)`; `.float()` maps the
booleans to `1.0`/`0.0`; `.masked_fill(mask == 0, float("-inf"))` and
`.masked_fill(mask == 1, float(0.0))` both test the boolean tensor `mask`
still bound at argument-evaluation time. -/
def maskEntry (i j : ℕ) : FloatVal :=
  let b : Bool := decide (onesTriu j i = 1)
  let f : FloatVal := .val (if b then 1 else 0)
  let f₂ : FloatVal := if b = false then .negInf else f
  if b = true then .val 0 else f₂

/-- `generate_square_subsequent_mask(size)`.  `size` is a Python int;
`torch.ones(size, size)` raises on a negative dimension and produces an
empty tensor at zero. -/
def generate_square_subsequent_mask (size : ℤ) : Except TorchError Mask :=
  if size < 0 then .error .negativeDim
  else .ok ⟨size.toNat, fun i j => maskEntry i j⟩

/-! ## Helper lemmas -/

/-- The float expression `(W - WW) / WS + 1` under `math.floor` equals the
integer-division expression `(W - WW) / WS + 1` over ℤ (euclidean division,
which agrees with floored division here since the divisor is nonnegative). -/
theorem LineCNNSimple.S_eq_intDiv (m : LineCNNSimple) (W : ℕ) :
    m.S W = ((W : ℤ) - (m.WW : ℤ)) / (m.WS : ℤ) + 1 := by
  unfold LineCNNSimple.S
  rw [Int.floor_add_one]
  have h : ((W : ℚ) - (m.WW : ℚ)) = (((W : ℤ) - (m.WW : ℤ) : ℤ) : ℚ) := by
    push_cast
    ring
  rw [h, Rat.floor_intCast_div_natCast]

/-- When the image is at least one window wide, the floored float formula
agrees with the natural-number division formula of the spec. -/
theorem LineCNNSimple.S_eq_natDiv (m : LineCNNSimple) (W : ℕ) (hW : m.WW ≤ W) :
    m.S W = ((W - m.WW) / m.WS + 1 : ℕ) := by
  rw [m.S_eq_intDiv W]
  have h1 : ((W : ℤ) - (m.WW : ℤ)) = ((W - m.WW : ℕ) : ℤ) := by omega
  rw [h1]
  norm_cast

/-- When the image is at least one window wide the computed `S` is
nonnegative (indeed positive). -/
theorem LineCNNSimple.S_nonneg (m : LineCNNSimple) (W : ℕ) (hW : m.WW ≤ W) :
    0 ≤ m.S W := by
  rw [m.S_eq_natDiv W hW]
  positivity

/-- When the image is narrower than one window, the computed `S` is at most
zero: the spec's "must be ≥ 1" region is exactly `WW ≤ W`. -/
theorem LineCNNSimple.S_nonpos (m : LineCNNSimple) (W : ℕ) (hWS : 0 < m.WS)
    (hW : W < m.WW) : m.S W ≤ 0 := by
  rw [m.S_eq_intDiv W]
  have hb : (0 : ℤ) < (m.WS : ℤ) := by exact_mod_cast hWS
  have hneg : (W : ℤ) - (m.WW : ℤ) < 0 := by
    have : (W : ℤ) < (m.WW : ℤ) := by exact_mod_cast hW
    omega
  have := Int.ediv_neg' hneg hb
  omega

/-- Evaluation of `forward` on the non-error path, in terms of the computed
sequence length. -/
theorem LineCNNSimple.forward_eq_ok (m : LineCNNSimple) (B C W : ℕ) (x : Image)
    (hWS : m.WS ≠ 0) (hk : 0 ≤ m.S W) :
    m.forward B C IMAGE_SIZE W x =
      .ok ⟨B, m.num_classes,
        if m.limit_output_length then min (m.S W).toNat m.output_length
        else (m.S W).toNat,
        fun b c s =>
          if s < (m.S W).toNat then m.cnn (windowSlice x (m.start_w s)) b c
          else 0⟩ := by
  unfold LineCNNSimple.forward
  rw [if_neg (fun h => h rfl), if_neg hWS, if_neg (not_lt.mpr hk)]
  cases h : m.limit_output_length <;> simp [h]

/-- Evaluation of `forward` when the height assertion fails. -/
theorem LineCNNSimple.forward_eq_assert (m : LineCNNSimple) (B C H W : ℕ)
    (x : Image) (hH : H ≠ IMAGE_SIZE) :
    m.forward B C H W x = .error .assertionFailed := by
  unfold LineCNNSimple.forward
  rw [if_pos hH]

/-- Evaluation of `forward` when the computed `S` is negative: the zero
tensor cannot be allocated. -/
theorem LineCNNSimple.forward_eq_negativeDim (m : LineCNNSimple) (B C W : ℕ)
    (x : Image) (hWS : m.WS ≠ 0) (hk : m.S W < 0) :
    m.forward B C IMAGE_SIZE W x = .error .negativeDim := by
  unfold LineCNNSimple.forward
  rw [if_neg (fun h => h rfl), if_neg hWS, if_pos hk]

/-- The all-zero input image, used for concrete instantiations. -/
def zeroImage : Image := fun _ _ _ _ => 0

/-- A concrete encoder configuration: default window width and stride 28,
truncation disabled, ten classes, configured output length 3, and the
constantly-zero feature extractor. -/
def exampleModel : LineCNNSimple :=
  ⟨28, 28, false, 10, 3, fun _ _ _ => 0⟩

/-- The same configuration with `limit_output_length` enabled. -/
def exampleModelLim : LineCNNSimple :=
  ⟨28, 28, true, 10, 3, fun _ _ _ => 0⟩

/-! ## Claims -/

/-- C1: for an input of the configured fixed height, `W ≥ WW`, `WS > 0` and
truncation disabled, the float-division floor `math.floor((W - WW)/WS + 1)`
computed by the code equals the spec's integer formula
`floor((W - WW)/WS) + 1`, and the sequence length of the activation tensor
returned by `forward` is exactly that number. -/
theorem C1_sequence_length (m : LineCNNSimple) (B C W : ℕ) (x : Image)
    (hWS : 0 < m.WS) (hlim : m.limit_output_length = false) (hW : m.WW ≤ W) :
    m.S W = ((W - m.WW) / m.WS + 1 : ℕ) ∧
    resultSeqLen (m.forward B C IMAGE_SIZE W x) =
      some ((W - m.WW) / m.WS + 1) := by
  have hS := m.S_eq_natDiv W hW
  refine ⟨hS, ?_⟩
  rw [m.forward_eq_ok B C W x hWS.ne' (m.S_nonneg W hW)]
  simp only [resultSeqLen, hlim, Bool.false_eq_true, if_false, hS,
    Int.toNat_natCast]

/-- Witness for C1 at the spec's own test vector `W = 84`, `WW = WS = 28`,
where `S = 3`. -/
theorem C1_sequence_length_witness :
    (0 < exampleModel.WS ∧ exampleModel.limit_output_length = false ∧
      exampleModel.WW ≤ 84) ∧
    exampleModel.S 84 = ((84 - exampleModel.WW) / exampleModel.WS + 1 : ℕ) ∧
    resultSeqLen (exampleModel.forward 1 1 IMAGE_SIZE 84 zeroImage) =
      some ((84 - exampleModel.WW) / exampleModel.WS + 1) :=
  ⟨⟨by decide, rfl, by decide⟩,
   C1_sequence_length exampleModel 1 1 84 zeroImage (by decide) rfl (by decide)⟩

/-- C3 counterexample: with the default configuration (`WW = WS = 28`) and a
27-pixel-wide image of the correct height, the width is strictly smaller
than the window width, yet `forward` does not fail at all: it returns an
activation tensor whose sequence length is `0`, contradicting both parts of
the claim ("fails with InvalidGeometry" and "never returns a result with a
zero or negative sequence length"). -/
theorem C3_counterexample :
    27 < exampleModel.WW ∧
    resultSeqLen (exampleModel.forward 1 1 IMAGE_SIZE 27 zeroImage) = some 0 := by
  refine ⟨by decide, ?_⟩
  have hfloor : exampleModel.S 27 = 0 := by
    rw [exampleModel.S_eq_intDiv 27]
    decide
  rw [exampleModel.forward_eq_ok 1 1 27 zeroImage (by decide) hfloor.ge]
  have hl : exampleModel.limit_output_length = false := rfl
  simp only [resultSeqLen, hl, Bool.false_eq_true, if_false, hfloor,
    Int.toNat_zero]

/-- C3 (amended): a height mismatch does fail fast (the `assert`), but a
width smaller than the window width is never checked: the computed `S` is
≤ 0, and `forward` either returns a tensor with sequence length `0` (when
`S = 0`) or fails with the tensor-allocation error for a negative dimension
(when `S < 0`) — in no case is an `InvalidGeometry`-style width check
performed. -/
theorem C3_no_width_check (m : LineCNNSimple) (B C W : ℕ) (x : Image)
    (hWS : 0 < m.WS) (hW : W < m.WW) :
    (∀ H, H ≠ IMAGE_SIZE → m.forward B C H W x = .error .assertionFailed) ∧
    m.S W ≤ 0 ∧
    (0 ≤ m.S W → resultSeqLen (m.forward B C IMAGE_SIZE W x) = some 0) ∧
    (m.S W < 0 → m.forward B C IMAGE_SIZE W x = .error .negativeDim) := by
  refine ⟨fun H hH => m.forward_eq_assert B C H W x hH, m.S_nonpos W hWS hW,
    fun hk => ?_, fun hk => m.forward_eq_negativeDim B C W x hWS.ne' hk⟩
  have hS0 : m.S W = 0 := le_antisymm (m.S_nonpos W hWS hW) hk
  rw [m.forward_eq_ok B C W x hWS.ne' hk]
  cases h : m.limit_output_length <;> simp [resultSeqLen, h, hS0]

/-- Witness for the amended C3 at `W = 27 < 28 = WW`: the `S = 0` branch. -/
theorem C3_no_width_check_witness :
    (0 < exampleModel.WS ∧ 27 < exampleModel.WW) ∧
    ((∀ H, H ≠ IMAGE_SIZE →
        exampleModel.forward 1 1 H 27 zeroImage = .error .assertionFailed) ∧
     exampleModel.S 27 ≤ 0 ∧
     (0 ≤ exampleModel.S 27 →
        resultSeqLen (exampleModel.forward 1 1 IMAGE_SIZE 27 zeroImage) = some 0) ∧
     (exampleModel.S 27 < 0 →
        exampleModel.forward 1 1 IMAGE_SIZE 27 zeroImage = .error .negativeDim)) :=
  ⟨⟨by decide, by decide⟩,
   C3_no_width_check exampleModel 1 1 27 zeroImage (by decide) (by decide)⟩

/-- C4: for `W ≥ WW` and every window index `s` in `[0, S)`, the span is
the half-open interval `(s*WS, s*WS + WW)`: spans start at column `0`, are
strictly increasing, have width exactly `WW`, and end inside the image; the
feature extractor is applied to exactly that slice of the input and its
`(B, num_classes)` output is what sits at position `s` of the output
tensor's sequence axis. -/
theorem C4_window_spans (m : LineCNNSimple) (B C W : ℕ) (x : Image)
    (hWS : 0 < m.WS) (hlim : m.limit_output_length = false) (hW : m.WW ≤ W)
    (s : ℕ) (hs : s < (W - m.WW) / m.WS + 1) :
    m.start_w 0 = 0 ∧
    m.start_w s < m.start_w (s + 1) ∧
    m.start_w s = m.WS * s ∧
    m.end_w s - m.start_w s = m.WW ∧
    m.end_w s ≤ W ∧
    ∃ a, m.forward B C IMAGE_SIZE W x = .ok a ∧
      a.S = (W - m.WW) / m.WS + 1 ∧
      ∀ b c, a.entry b c s = m.cnn (windowSlice x (m.start_w s)) b c := by
  have hmul : s * m.WS ≤ W - m.WW := by
    have hdiv : s ≤ (W - m.WW) / m.WS := Nat.lt_succ_iff.mp hs
    exact (Nat.le_div_iff_mul_le hWS).mp hdiv
  have hS := m.S_eq_natDiv W hW
  refine ⟨Nat.mul_zero m.WS, ?_, rfl, ?_, ?_, ?_⟩
  · unfold LineCNNSimple.start_w
    have h1 : m.WS * (s + 1) = m.WS * s + m.WS := Nat.mul_succ m.WS s
    omega
  · unfold LineCNNSimple.end_w LineCNNSimple.start_w
    omega
  · unfold LineCNNSimple.end_w LineCNNSimple.start_w
    have : m.WS * s ≤ W - m.WW := by
      calc m.WS * s = s * m.WS := Nat.mul_comm _ _
        _ ≤ W - m.WW := hmul
    omega
  · refine ⟨_, m.forward_eq_ok B C W x hWS.ne' (m.S_nonneg W hW), ?_, ?_⟩
    · simp only [hlim, Bool.false_eq_true, if_false, hS, Int.toNat_natCast]
    · intro b c
      have hsn : s < (m.S W).toNat := by
        rw [hS, Int.toNat_natCast]
        exact hs
      simp only [hsn, if_pos]

/-- Witness for C4 at the spec's test vector `W = 84`, `s = 2`, where
the span is `(56, 84)`. -/
theorem C4_window_spans_witness :
    (0 < exampleModel.WS ∧ exampleModel.limit_output_length = false ∧
      exampleModel.WW ≤ 84 ∧ 2 < (84 - exampleModel.WW) / exampleModel.WS + 1) ∧
    (exampleModel.start_w 0 = 0 ∧
     exampleModel.start_w 2 < exampleModel.start_w 3 ∧
     exampleModel.start_w 2 = exampleModel.WS * 2 ∧
     exampleModel.end_w 2 - exampleModel.start_w 2 = exampleModel.WW ∧
     exampleModel.end_w 2 ≤ 84 ∧
     ∃ a, exampleModel.forward 1 1 IMAGE_SIZE 84 zeroImage = .ok a ∧
       a.S = (84 - exampleModel.WW) / exampleModel.WS + 1 ∧
       ∀ b c, a.entry b c 2 =
         exampleModel.cnn (windowSlice zeroImage (exampleModel.start_w 2)) b c) :=
  ⟨⟨by decide, rfl, by decide, by decide⟩,
   C4_window_spans exampleModel 1 1 84 zeroImage (by decide) rfl (by decide)
     2 (by decide)⟩

/-- C5: with the limit flag enabled and configured output length `L`
strictly smaller than the computed `S`, the result's sequence axis has
length exactly `L` and positions `0 ≤ s < L` hold the unchanged outputs of
the first `L` windows. -/
theorem C5_truncation (m : LineCNNSimple) (B C W : ℕ) (x : Image)
    (hWS : 0 < m.WS) (hlim : m.limit_output_length = true) (hW : m.WW ≤ W)
    (hL : m.output_length < (W - m.WW) / m.WS + 1) :
    ∃ a, m.forward B C IMAGE_SIZE W x = .ok a ∧
      a.S = m.output_length ∧
      ∀ s, s < m.output_length → ∀ b c,
        a.entry b c s = m.cnn (windowSlice x (m.start_w s)) b c := by
  have hS := m.S_eq_natDiv W hW
  have htn : (m.S W).toNat = (W - m.WW) / m.WS + 1 := by
    rw [hS, Int.toNat_natCast]
  refine ⟨_, m.forward_eq_ok B C W x hWS.ne' (m.S_nonneg W hW), ?_, ?_⟩
  · simp only [hlim, if_true, htn]
    exact Nat.min_eq_right (Nat.le_of_lt hL)
  · intro s hsL b c
    have hsn : s < (m.S W).toNat := by
      rw [htn]
      exact Nat.lt_of_lt_of_le hsL (Nat.le_of_lt hL)
    simp only [hsn, if_pos]

/-- Witness for C5 with `W = 140` (so `S = 5`) and `output_length = 3`. -/
theorem C5_truncation_witness :
    (0 < exampleModelLim.WS ∧ exampleModelLim.limit_output_length = true ∧
      exampleModelLim.WW ≤ 140 ∧
      exampleModelLim.output_length < (140 - exampleModelLim.WW) / exampleModelLim.WS + 1) ∧
    (∃ a, exampleModelLim.forward 1 1 IMAGE_SIZE 140 zeroImage = .ok a ∧
      a.S = exampleModelLim.output_length ∧
      ∀ s, s < exampleModelLim.output_length → ∀ b c,
        a.entry b c s =
          exampleModelLim.cnn (windowSlice zeroImage (exampleModelLim.start_w s)) b c) :=
  ⟨⟨by decide, rfl, by decide, by decide⟩,
   C5_truncation exampleModelLim 1 1 140 zeroImage (by decide) rfl (by decide)
     (by decide)⟩

/-- C10: with the limit flag enabled, the final slice truncates
unconditionally, so the returned sequence-axis length is always
`min (S, output_length)`, and when `output_length ≥ S` the returned tensor
is identical to the one the untruncated configuration returns. -/
theorem C10_unconditional_slice (m : LineCNNSimple) (B C W : ℕ) (x : Image)
    (hWS : 0 < m.WS) (hlim : m.limit_output_length = true) (hW : m.WW ≤ W) :
    ∃ a b,
      m.forward B C IMAGE_SIZE W x = .ok a ∧
      ({ m with limit_output_length := false }).forward B C IMAGE_SIZE W x = .ok b ∧
      a.S = min ((W - m.WW) / m.WS + 1) m.output_length ∧
      b.S = (W - m.WW) / m.WS + 1 ∧
      ((W - m.WW) / m.WS + 1 ≤ m.output_length → a = b) := by
  have hS := m.S_eq_natDiv W hW
  have htn : (m.S W).toNat = (W - m.WW) / m.WS + 1 := by
    rw [hS, Int.toNat_natCast]
  have hS2 : ({ m with limit_output_length := false } : LineCNNSimple).S W = m.S W := rfl
  have hsw : ∀ t, ({ m with limit_output_length := false } : LineCNNSimple).start_w t
      = m.start_w t := fun _ => rfl
  have hcnn : ({ m with limit_output_length := false } : LineCNNSimple).cnn = m.cnn := rfl
  refine ⟨_, _, m.forward_eq_ok B C W x hWS.ne' (m.S_nonneg W hW),
    LineCNNSimple.forward_eq_ok { m with limit_output_length := false } B C W x
      hWS.ne' (by rw [hS2]; exact m.S_nonneg W hW), ?_, ?_, ?_⟩
  · simp only [hlim, if_true, htn]
  · simp only [Bool.false_eq_true, if_false, hS2, htn]
  · intro hle
    simp only [hlim, if_true, Bool.false_eq_true, if_false, hS2, hsw, hcnn, htn,
      Nat.min_eq_left hle]

/-- Witness for C10 with `W = 84` (so `S = 3`) and `output_length = 3`:
the slice keeps everything and the two results agree. -/
theorem C10_unconditional_slice_witness :
    (0 < exampleModelLim.WS ∧ exampleModelLim.limit_output_length = true ∧
      exampleModelLim.WW ≤ 84) ∧
    (∃ a b,
      exampleModelLim.forward 1 1 IMAGE_SIZE 84 zeroImage = .ok a ∧
      ({ exampleModelLim with limit_output_length := false }).forward
          1 1 IMAGE_SIZE 84 zeroImage = .ok b ∧
      a.S = min ((84 - exampleModelLim.WW) / exampleModelLim.WS + 1)
              exampleModelLim.output_length ∧
      b.S = (84 - exampleModelLim.WW) / exampleModelLim.WS + 1 ∧
      ((84 - exampleModelLim.WW) / exampleModelLim.WS + 1 ≤
          exampleModelLim.output_length → a = b)) :=
  ⟨⟨by decide, rfl, by decide⟩,
   C10_unconditional_slice exampleModelLim 1 1 84 zeroImage (by decide) rfl
     (by decide)⟩

/-- For in-range indices, the finished mask entry is `0` exactly on and
below the diagonal and `-inf` strictly above it. -/
theorem maskEntry_eq (i j : ℕ) :
    maskEntry i j = if j ≤ i then FloatVal.val 0 else FloatVal.negInf := by
  unfold maskEntry onesTriu
  by_cases h : j ≤ i <;> simp [h]

/-- C2: for every `size ≥ 1`, `generate_square_subsequent_mask` succeeds
with a `(size, size)` mask whose entry `(i, j)` equals `0` iff `j ≤ i` and
equals `-inf` whenever `j > i`. -/
theorem C2_causal_mask (size : ℤ) (h : 1 ≤ size) :
    ∃ m, generate_square_subsequent_mask size = .ok m ∧
      m.size = size.toNat ∧
      ∀ i j, i < m.size → j < m.size →
        ((m.entry i j = FloatVal.val 0 ↔ j ≤ i) ∧
         (i < j → m.entry i j = FloatVal.negInf)) := by
  refine ⟨⟨size.toNat, fun i j => maskEntry i j⟩, ?_, rfl, ?_⟩
  · unfold generate_square_subsequent_mask
    rw [if_neg (by omega)]
  · intro i j _ _
    show (maskEntry i j = FloatVal.val 0 ↔ j ≤ i) ∧
      (i < j → maskEntry i j = FloatVal.negInf)
    rw [maskEntry_eq]
    by_cases hij : j ≤ i
    · simp [hij]
    · constructor
      · simp [hij]
      · intro _
        rw [if_neg hij]

/-- Witness for C2 at the spec's test size `4`. -/
theorem C2_causal_mask_witness :
    (1 : ℤ) ≤ 4 ∧
    ∃ m, generate_square_subsequent_mask 4 = .ok m ∧
      m.size = (4 : ℤ).toNat ∧
      ∀ i j, i < m.size → j < m.size →
        ((m.entry i j = FloatVal.val 0 ↔ j ≤ i) ∧
         (i < j → m.entry i j = FloatVal.negInf)) :=
  ⟨by decide, C2_causal_mask 4 (by decide)⟩

/-- C8 counterexample: `size = 0` satisfies `size < 1`, but the generator
does not fail: `torch.ones(0, 0)` is legal and the function returns an
empty `(0, 0)` mask. -/
theorem C8_counterexample :
    (0 : ℤ) < 1 ∧
    generate_square_subsequent_mask 0 =
      .ok ⟨0, fun i j => maskEntry i j⟩ := by
  refine ⟨by decide, ?_⟩
  unfold generate_square_subsequent_mask
  rw [if_neg (by omega)]
  rfl

/-- C8 (amended): the generator has no failure modes for `size ≥ 0`
(`size = 0` included, returning the empty mask); only a negative `size`
fails, with the tensor-allocation error, there being no explicit
configuration check in the code. -/
theorem C8_failure_modes (size : ℤ) :
    (0 ≤ size → generate_square_subsequent_mask size =
      .ok ⟨size.toNat, fun i j => maskEntry i j⟩) ∧
    (size < 0 → generate_square_subsequent_mask size = .error .negativeDim) := by
  constructor
  · intro h
    unfold generate_square_subsequent_mask
    rw [if_neg (by omega)]
  · intro h
    unfold generate_square_subsequent_mask
    rw [if_pos h]

/-- Witness for the amended C8 at `size = 3` and `size = -1`. -/
theorem C8_failure_modes_witness :
    ((0 : ℤ) ≤ 3 ∧ generate_square_subsequent_mask 3 =
      .ok ⟨(3 : ℤ).toNat, fun i j => maskEntry i j⟩) ∧
    ((-1 : ℤ) < 0 ∧ generate_square_subsequent_mask (-1) = .error .negativeDim) :=
  ⟨⟨by decide, (C8_failure_modes 3).1 (by decide)⟩,
   ⟨by decide, (C8_failure_modes (-1)).2 (by decide)⟩⟩

/-- Evaluation of the 1-D `make_pe` at even depth: the strided sine and
cosine assignments both have matching shapes and the table is built. -/
theorem PositionalEncoding1D.make_pe_even (d max_len : ℕ) (hd : d % 2 = 0) :
    PositionalEncoding1D.make_pe d max_len =
      .ok ⟨max_len, 1, d, fun p _ i => PositionalEncoding1D.pe_entry d p i⟩ := by
  unfold PositionalEncoding1D.make_pe
  rw [if_neg (by omega)]

/-- Evaluation of the 1-D `make_pe` at odd depth: the cosine slice
assignment fails to broadcast. -/
theorem PositionalEncoding1D.make_pe_odd (d max_len : ℕ) (hd : d % 2 = 1) :
    PositionalEncoding1D.make_pe d max_len = .error .shapeMismatch := by
  unfold PositionalEncoding1D.make_pe
  rw [if_pos (by omega)]

/-- C6 counterexample: `d_model = 6` is even (it passes the constructor's
evenness assert), yet the 2-D `make_pe` raises instead of producing a
`(6, max_h, max_w)` table: the halves have odd depth `3`, and the 1-D
`make_pe` the call resolves to fails on odd depth. -/
theorem C6_counterexample :
    (6 : ℕ) % 2 = 0 ∧
    PositionalEncoding2D.make_pe 6 1 1 = .error .shapeMismatch :=
  ⟨rfl, rfl⟩

/-- C6 (amended): for every embedding depth `d` divisible by 4 (so that the
half-depth `d/2` is even and the inner 1-D calls succeed) and all `max_h`,
`max_w`, the 2-D table has shape `(d, max_h, max_w)` and splits exactly in
half along the depth axis: the first `d/2` depth entries at `(r, c)` depend
only on `r`, the last `d/2` only on `c`. -/
theorem C6_table_split (d max_h max_w : ℕ) (hd : d % 4 = 0) :
    ∃ t, PositionalEncoding2D.make_pe d max_h max_w = .ok t ∧
      t.d0 = d ∧ t.d1 = max_h ∧ t.d2 = max_w ∧
      (∀ i r c cc, i < d / 2 → t.entry i r c = t.entry i r cc) ∧
      (∀ i r rr c, d / 2 ≤ i → i < d → t.entry i r c = t.entry i rr c) := by
  have h2 : (d / 2) % 2 = 0 := by omega
  have hcall : ∀ len, call_module_make_pe resolvePositionalEncoding (d / 2) len =
      PositionalEncoding1D.make_pe (d / 2) len := fun _ => rfl
  have heq : PositionalEncoding2D.make_pe d max_h max_w =
      .ok ⟨d / 2 + d / 2, max_h, max_w,
        fun i r c =>
          if i < d / 2 then PositionalEncoding1D.pe_entry (d / 2) r i
          else PositionalEncoding1D.pe_entry (d / 2) c (i - d / 2)⟩ := by
    unfold PositionalEncoding2D.make_pe
    rw [hcall, hcall, PositionalEncoding1D.make_pe_even (d / 2) max_h h2,
      PositionalEncoding1D.make_pe_even (d / 2) max_w h2]
    rfl
  refine ⟨_, heq, by simp only; omega, rfl, rfl, ?_, ?_⟩
  · intro i r c cc hi
    simp only [if_pos hi]
  · intro i r rr c hi _
    simp only [if_neg (Nat.not_lt.mpr hi)]

/-- Witness for the amended C6 at `d = 4`, `max_h = 2`, `max_w = 3`. -/
theorem C6_table_split_witness :
    (4 : ℕ) % 4 = 0 ∧
    (∃ t, PositionalEncoding2D.make_pe 4 2 3 = .ok t ∧
      t.d0 = 4 ∧ t.d1 = 2 ∧ t.d2 = 3 ∧
      (∀ i r c cc, i < 4 / 2 → t.entry i r c = t.entry i r cc) ∧
      (∀ i r rr c, 4 / 2 ≤ i → i < 4 → t.entry i r c = t.entry i rr c)) :=
  ⟨rfl, C6_table_split 4 2 3 rfl⟩

/-- C7: the module-level name `PositionalEncoding` is bound twice; after
the module body runs it denotes the second (classic 1-D) class, and the
call `PositionalEncoding.make_pe(...)` inside the first (2-D) class's
`make_pe` therefore dispatches to the 1-D `make_pe`: the 2-D `make_pe` is
extensionally the variant wired directly to the 1-D one. -/
theorem C7_name_shadowing :
    resolvePositionalEncoding = some PEVariant.oneD ∧
    ∀ d max_h max_w, PositionalEncoding2D.make_pe d max_h max_w =
      make_pe_2D_via_1D d max_h max_w :=
  ⟨rfl, fun _ _ _ => rfl⟩

/-- The concrete 1-D table of depth 2 and length 1, for the C9 witness. -/
noncomputable def pe_2_1 : Tensor3 :=
  ⟨1, 1, 2, fun p _ i => PositionalEncoding1D.pe_entry 2 p i⟩

/-- C9: whenever the 1-D `make_pe` builds a table (depth `d`, length
`max_len ≥ 1`), the row for position 0 is `0` at every even depth index
(`sin 0 = 0`) and `1` at every odd depth index (`cos 0 = 1`). -/
theorem C9_position_zero (d max_len : ℕ) (_hlen : 1 ≤ max_len) (t : Tensor3)
    (ht : PositionalEncoding1D.make_pe d max_len = .ok t) (i : ℕ) (_hi : i < d) :
    (i % 2 = 0 → t.entry 0 0 i = 0) ∧ (i % 2 = 1 → t.entry 0 0 i = 1) := by
  have hteq : t = ⟨max_len, 1, d, fun p _ i => PositionalEncoding1D.pe_entry d p i⟩ := by
    unfold PositionalEncoding1D.make_pe at ht
    by_cases h : d / 2 ≠ (d + 1) / 2
    · rw [if_pos h] at ht
      simp at ht
    · rw [if_neg h] at ht
      exact (Except.ok.inj ht).symm
  subst hteq
  constructor <;> intro hpar <;>
    simp [PositionalEncoding1D.pe_entry, hpar]

/-- Witness for C9 at depth 2, length 1, for both parities. -/
theorem C9_position_zero_witness :
    (1 ≤ 1 ∧ PositionalEncoding1D.make_pe 2 1 = .ok pe_2_1 ∧
      (0 : ℕ) < 2 ∧ (1 : ℕ) < 2) ∧
    ((0 % 2 = 0 → pe_2_1.entry 0 0 0 = 0) ∧ (0 % 2 = 1 → pe_2_1.entry 0 0 0 = 1)) ∧
    ((1 % 2 = 0 → pe_2_1.entry 0 0 1 = 0) ∧ (1 % 2 = 1 → pe_2_1.entry 0 0 1 = 1)) :=
  ⟨⟨by decide, rfl, by decide, by decide⟩,
   C9_position_zero 2 1 (by decide) pe_2_1 rfl 0 (by decide),
   C9_position_zero 2 1 (by decide) pe_2_1 rfl 1 (by decide)⟩
